import Mathlib

/-!
Shallow embedding of `src/lib.rs` of the `rust-wasm` repository.

The Rust source file contains:
* a commented-out function `add(left: u64, right: u64) -> u64 { left + right }`
  together with a commented-out test `assert_eq!(add(2, 2), 4)`;
* two `#[wasm_bindgen]` exported functions:
  `greet(name: &str) -> String` returning `format!("Hello, {}!", name)`, and
  `age_comparator(age: i8) -> String`, which matches on `age.cmp(&18)`.

Machine integers are modelled as `Nat` (u64, with explicit `% 2^64` where
overflow matters) and `Int` (i8).  Rust `String`s are Lean `String`s; the
`format!` calls on `&str` and `i8` are string concatenation with the decimal
rendering `toString` of the integer.
-/

/-- The export surface of the module: the names of the `pub fn`s carrying a
`#[wasm_bindgen]` attribute in `src/lib.rs`.  The `add` function is present
only as commented-out source text and therefore is not part of this list. -/
def moduleExports : List String := ["greet", "age_comparator"]

/-- Embedding of the commented-out `add` from `src/lib.rs`:
`pub fn add(left: u64, right: u64) -> u64 { left + right }`.
The `u64` sum is modelled with wraparound modulo `2^64`, the behaviour of
Rust release builds (the build mode used for wasm packages). -/
def add (left right : Nat) : Nat := (left + right) % 2 ^ 64

/-- Embedding of `greet` from `src/lib.rs`:
`format!("Hello, {}!", name)` is the literal concatenation. -/
def greet (name : String) : String := "Hello, " ++ name ++ "!"

/-- Embedding of `i8::cmp` (Rust's total order on `i8`), used by
`age_comparator` via `age.cmp(&eligible_age)`. -/
def i8Cmp (a b : Int) : Ordering :=
  if a < b then .lt else if a = b then .eq else .gt

/-- Embedding of `age_comparator` from `src/lib.rs`: a three-way match on
`age.cmp(&18)`, formatting `age` in decimal into the message. -/
def age_comparator (age : Int) : String :=
  let eligible_age : Int := 18
  match i8Cmp age eligible_age with
  | .gt => "You are " ++ toString age ++ " Eligible To Vote"
  | .lt => "You are " ++ toString age ++ " Not Eligible To Vote"
  | .eq => "Congrats You gained the Rights to Vote"

/-- A single cross-boundary call into the module: one of the two exported
functions, or the commented-out `add` under its model. -/
inductive Call : Type
  | addCall (left right : Nat)
  | greetCall (name : String)
  | ageCall (age : Int)
deriving DecidableEq

/-- The value a call returns across the boundary: a `u64` or a string. -/
inductive CallResult : Type
  | num (n : Nat)
  | str (s : String)
deriving DecidableEq

/-- Dispatch of one call to the corresponding function. -/
def runCall : Call → CallResult
  | .addCall a b => .num (add a b)
  | .greetCall s => .str (greet s)
  | .ageCall a => .str (age_comparator a)

/-- A sequence of calls from the host, executed in order.  The module keeps
no state, so a trace is just the list of per-call results. -/
def runTrace (t : List Call) : List CallResult := t.map runCall

lemma i8Cmp_eq_gt {a b : Int} (h : b < a) : i8Cmp a b = .gt := by
  simp [i8Cmp, not_lt_of_gt h, ne_of_gt h]

lemma i8Cmp_eq_lt {a b : Int} (h : a < b) : i8Cmp a b = .lt := by
  simp [i8Cmp, h]

lemma runTrace_getElem (pre post : List Call) (c : Call) :
    (runTrace (pre ++ c :: post))[pre.length]? = some (runCall c) := by
  rw [runTrace, List.map_append, List.getElem?_append_right (by simp)]
  simp

/-- C1 (counterexample): the claim says the module's export surface includes
`add`, but in `src/lib.rs` the `add` definition is commented out and carries
no `#[wasm_bindgen]` attribute, so `add` is not among the exports. -/
theorem add_not_exported : "add" ∉ moduleExports := by decide

/-- C1 (amended): the export surface does not include `add`; the commented-out
`add`, modelled with u64 wraparound, returns the exact arithmetic sum for every
pair of u64 values whose sum is in the u64 range, and `add 2 2 = 4`. -/
theorem add_sum_in_range (a b : Nat) (ha : a < 2 ^ 64) (hb : b < 2 ^ 64)
    (hab : a + b < 2 ^ 64) : add a b = a + b ∧ add 2 2 = 4 :=
  ⟨Nat.mod_eq_of_lt hab, by decide⟩

/-- C1 (witness): the amended theorem applied at `a = 2`, `b = 2`. -/
theorem add_sum_in_range_witness :
    (2 : Nat) < 2 ^ 64 ∧ (2 : Nat) + 2 < 2 ^ 64 ∧ add 2 2 = 2 + 2 :=
  ⟨by decide, by decide,
    (add_sum_in_range 2 2 (by decide) (by decide) (by decide)).1⟩

/-- C2: for every string `s`, `greet s` is exactly `"Hello, " ++ s ++ "!"`;
in particular `greet "World" = "Hello, World!"` and `greet "" = "Hello, !"`. -/
theorem greet_spec :
    (∀ s : String, greet s = "Hello, " ++ s ++ "!") ∧
      greet "World" = "Hello, World!" ∧ greet "" = "Hello, !" :=
  ⟨fun _ => rfl, by decide, by decide⟩

/-- C3: for every i8 value strictly greater than 18, `age_comparator` returns
the eligible message with the decimal rendering of the age. -/
theorem age_comparator_gt (age : Int) (h18 : 18 < age) (hmax : age ≤ 127) :
    age_comparator age = "You are " ++ toString age ++ " Eligible To Vote" := by
  simp [age_comparator, i8Cmp_eq_gt h18]

/-- C3 (witness): the theorem applied at `age = 20`. -/
theorem age_comparator_gt_witness :
    (18 : Int) < 20 ∧ (20 : Int) ≤ 127 ∧
      age_comparator 20 = "You are 20 Eligible To Vote" :=
  ⟨by decide, by decide,
    (age_comparator_gt 20 (by decide) (by decide)).trans (by decide)⟩

/-- C4: for every i8 value strictly less than 18, negative ages down to -128
included, `age_comparator` returns the not-eligible message with the decimal
rendering of the age. -/
theorem age_comparator_lt (age : Int) (hmin : -128 ≤ age) (h18 : age < 18) :
    age_comparator age = "You are " ++ toString age ++ " Not Eligible To Vote" := by
  simp [age_comparator, i8Cmp_eq_lt h18]

/-- C4 (witness): the theorem applied at `age = 15` and at `age = -128`. -/
theorem age_comparator_lt_witness :
    ((-128 : Int) ≤ 15 ∧ (15 : Int) < 18 ∧
        age_comparator 15 = "You are 15 Not Eligible To Vote") ∧
      age_comparator (-128) = "You are -128 Not Eligible To Vote" :=
  ⟨⟨by decide, by decide,
      (age_comparator_lt 15 (by decide) (by decide)).trans (by decide)⟩,
    (age_comparator_lt (-128) (by decide) (by decide)).trans (by decide)⟩

/-- C5: `age_comparator 18` is exactly the congratulation message, a third
case distinct from both the eligible and the not-eligible messages. -/
theorem age_comparator_at_threshold :
    age_comparator 18 = "Congrats You gained the Rights to Vote" ∧
      age_comparator 18 ≠ "You are 18 Eligible To Vote" ∧
      age_comparator 18 ≠ "You are 18 Not Eligible To Vote" :=
  ⟨by decide, by decide, by decide⟩

/-- C6: `greet` and `age_comparator` are total: on every input each returns a
result, and `age_comparator` always lands in one of its three message
branches, with no failure branch. -/
theorem exported_ops_total (s : String) (age : Int) :
    greet s = "Hello, " ++ s ++ "!" ∧
      (age_comparator age = "You are " ++ toString age ++ " Eligible To Vote" ∨
        age_comparator age = "You are " ++ toString age ++ " Not Eligible To Vote" ∨
        age_comparator age = "Congrats You gained the Rights to Vote") := by
  refine ⟨rfl, ?_⟩
  rcases lt_trichotomy age 18 with h | h | h
  · exact Or.inr (Or.inl (by simp [age_comparator, i8Cmp_eq_lt h]))
  · subst h
    exact Or.inr (Or.inr (by decide))
  · exact Or.inl (by simp [age_comparator, i8Cmp_eq_gt h])

/-- C6 (witness): totality evaluated at `s = "World"` and `age = 18`. -/
theorem exported_ops_total_witness :
    greet "World" = "Hello, " ++ "World" ++ "!" ∧
      (age_comparator 18 = "You are " ++ toString (18 : Int) ++ " Eligible To Vote" ∨
        age_comparator 18 = "You are " ++ toString (18 : Int) ++ " Not Eligible To Vote" ∨
        age_comparator 18 = "Congrats You gained the Rights to Vote") :=
  exported_ops_total "World" 18

/-- C7: determinism and statelessness: the result of a call depends only on
the call itself, not on its position in a trace or on the surrounding calls —
the same call in any two traces, at any positions, yields identical results. -/
theorem ops_deterministic (c : Call) (pre1 post1 pre2 post2 : List Call) :
    (runTrace (pre1 ++ c :: post1))[pre1.length]? =
      (runTrace (pre2 ++ c :: post2))[pre2.length]? := by
  rw [runTrace_getElem, runTrace_getElem]

/-- C7 (witness): the same `greet "World"` call in two different traces. -/
theorem ops_deterministic_witness :
    (runTrace ([Call.ageCall 18] ++ Call.greetCall "World" :: []))[1]? =
      (runTrace ([] ++ Call.greetCall "World" :: [Call.addCall 2 2]))[0]? :=
  ops_deterministic (Call.greetCall "World") [Call.ageCall 18] [] [] [Call.addCall 2 2]

/-- C8 (counterexample): numeric overflow in `add` cannot be a failure class
of the module: `add` is commented out in `src/lib.rs` and is not exported. -/
theorem overflow_policy_counterexample : "add" ∉ moduleExports := by decide

/-- C8 (amended): the module exports no `add`, so it has no numeric-overflow
failure class at all; the commented-out `add`, as modelled, follows the
wraparound policy: its result is the sum modulo `2^64` and stays in range. -/
theorem add_overflow_wraparound (a b : Nat) (ha : a < 2 ^ 64) (hb : b < 2 ^ 64) :
    add a b = (a + b) % 2 ^ 64 ∧ add a b < 2 ^ 64 :=
  ⟨rfl, Nat.mod_lt _ (by norm_num)⟩

/-- C8 (witness): wraparound observed at the concrete overflowing input
`a = 2^64 - 1`, `b = 1`, where the modelled `add` returns 0. -/
theorem add_overflow_wraparound_witness :
    (2 ^ 64 - 1 : Nat) < 2 ^ 64 ∧ (1 : Nat) < 2 ^ 64 ∧
      add (2 ^ 64 - 1) 1 = (2 ^ 64 - 1 + 1) % 2 ^ 64 ∧ add (2 ^ 64 - 1) 1 = 0 :=
  ⟨by decide, by decide,
    (add_overflow_wraparound (2 ^ 64 - 1) 1 (by decide) (by decide)).1, by decide⟩

/-- C9: the export surface is exactly `greet` and `age_comparator`; no `add`
is exported, so a cross-boundary call to `add` is impossible. -/
theorem export_surface :
    moduleExports = ["greet", "age_comparator"] ∧ "add" ∉ moduleExports ∧
      "greet" ∈ moduleExports ∧ "age_comparator" ∈ moduleExports :=
  ⟨rfl, by decide, by decide, by decide⟩

/-- C10: `greet` is injective: distinct names yield distinct greetings, so
the name is recoverable from the greeting. -/
theorem greet_injective (s1 s2 : String) (h : s1 ≠ s2) : greet s1 ≠ greet s2 := by
  intro hg
  apply h
  apply String.ext
  have hd := congrArg String.data hg
  simpa [greet] using hd

/-- C10 (witness): the theorem applied at the distinct names "a" and "b". -/
theorem greet_injective_witness : ("a" : String) ≠ "b" ∧ greet "a" ≠ greet "b" :=
  ⟨by decide, greet_injective "a" "b" (by decide)⟩
